import Mathlib

/-
Shallow embedding of github.com/a-poor/red-tape, pkg/proxy/proxy.go:
a fault-injecting HTTP reverse-proxy transport.

Modelling conventions:
* Go float64 values (rates, maxima, random draws) are modelled as exact
  rationals; the operations the source performs on them (division,
  comparison, clamping, truncation toward zero) are order-exact, so the
  properties proved here do not depend on float rounding.
* time.Duration is modelled as a mathematical integer count of
  nanoseconds (int64 overflow of durations beyond ~292 years is not
  modelled).
* The process-global random source consumed by gonum's
  distuv.Exponential.Rand (proxy.go sets no Src on either sampler) is
  modelled as an explicit stream of nonnegative standard-exponential
  draws threaded through each call; one draw is consumed per sample and
  distuv divides the draw by the configured Rate.  The configuration's
  Seed field is never read anywhere in proxy.go, so it does not appear
  in any computation below.
* Side effects (log lines via the charmbracelet logger, sleeps, the
  call into the underlying transport) are reified as an ordered trace
  of actions; the logger itself is modelled as the name of the sink the
  events go to.
* net/url.Parse and httputil.ProxyRequest.SetURL / singleJoiningSlash
  are standard-library dependencies of proxy.go; they are modelled from
  the Go standard library source, restricted to URL strings without
  percent-escapes, '#'-fragments needing unescaping, bracketed (IPv6)
  hosts, non-ASCII scheme letters, or userinfo validation.  Parse
  errors carry the inner message (Go additionally wraps them in a
  url.Error).
-/

set_option maxRecDepth 4000

/-- Duration models Go's time.Duration: a count of nanoseconds. -/
abbrev Duration := Int

/-- Millisecond models Go's time.Millisecond. -/
def Millisecond : Duration := 1000000

/-- Request models the parts of *http.Request that proxy.go touches:
the request URL (scheme / host / path) and the Host header field. -/
structure Request where
  urlScheme : String
  urlHost : String
  urlPath : String
  hostHeader : String
deriving Repr, DecidableEq

/-- Response models *http.Response abstractly (status code and body). -/
structure Response where
  statusCode : Nat
  body : String
deriving Repr, DecidableEq

/-- TransportFn models an http.RoundTripper as a request-to-
response-or-error function (the source never calls it twice per
request, so no state is needed). -/
abbrev TransportFn := Request → Except String Response

/-- Level models the two log levels proxy.go emits. -/
inductive Level where
  | info
  | debug
deriving Repr, DecidableEq

/-- Effect reifies the side effects of one round trip, in order: a log
event sent to a named sink, a sleep of a duration, or the invocation of
the underlying transport on a request. -/
inductive Effect where
  | log (sink : String) (level : Level) (msg : String)
  | sleep (d : Duration)
  | forward (r : Request)
deriving Repr, DecidableEq

/-- ProxyConfig mirrors proxy.go's ProxyConfig field for field.  Seed
is uint64 in Go (0 treated as no seed); it is modelled as Nat since no
code path reads it, so overflow never matters. -/
structure ProxyConfig where
  DestURL : String
  ProbDrop : ℚ
  PreDelayRate : ℚ
  PreDelayMax : ℚ
  PostDelayRate : ℚ
  PostDelayMax : ℚ
  Seed : Nat
  Transport : Option TransportFn := none
  Logger : Option String := none

/-- truncToward0 models Go's float64-to-int64 conversion
(time.Duration(s)): truncation toward zero. -/
def truncToward0 (q : ℚ) : Int :=
  if 0 ≤ q then ⌊q⌋ else ⌈q⌉

/-- sampleDelay models the shared body of proxy.go's preDelay and
postDelay closures (lines 68-101): if the rate is ≤ 0 return 0 without
consuming randomness; otherwise draw once (distuv.Exponential.Rand
returns the standard-exponential draw divided by Rate), clamp to the
max when the draw exceeds it, and convert to milliseconds by
truncation toward zero. -/
def sampleDelay (rate mx : ℚ) (s : Stream' ℚ) : Duration × Stream' ℚ :=
  if rate ≤ 0 then (0, s)
  else
    let x := s.head / rate
    let y := if x > mx then mx else x
    (truncToward0 y * Millisecond, s.tail)

/-- preDelay models the preDelay closure (proxy.go lines 68-84). -/
def preDelay (cfg : ProxyConfig) (s : Stream' ℚ) : Duration × Stream' ℚ :=
  sampleDelay cfg.PreDelayRate cfg.PreDelayMax s

/-- postDelay models the postDelay closure (proxy.go lines 85-101). -/
def postDelay (cfg : ProxyConfig) (s : Stream' ℚ) : Duration × Stream' ℚ :=
  sampleDelay cfg.PostDelayRate cfg.PostDelayMax s

/-- RTOutput is the outcome of one round trip: the result handed back
to the caller, the state of the global random stream afterwards, and
the ordered trace of side effects. -/
structure RTOutput where
  result : Except String Response
  stream : Stream' ℚ
  trace : List Effect

/-- RoundTripperFn is the type of the round-trip function the
constructor returns, with the random stream made explicit. -/
abbrev RoundTripperFn := Request → Stream' ℚ → RTOutput

/-- roundTrip models the closure returned by MakeRoundTripper
(proxy.go lines 104-127).  dt models the ambient http.DefaultTransport
and dl the ambient log.Default() sink.  Between the pre-sleep and the
send the source holds only the stub comment "Should the request be
dropped? TODO - Fill this in..." — no drop decision is evaluated and
cfg.ProbDrop is never read, so no corresponding action appears. -/
def roundTrip (dt : TransportFn) (dl : String) (cfg : ProxyConfig)
    (r : Request) (s : Stream' ℚ) : RTOutput :=
  let logger := cfg.Logger.getD dl
  let t := cfg.Transport.getD dt
  let p1 := preDelay cfg s
  let res := t r
  let p2 := postDelay cfg p1.2
  { result := res
    stream := p2.2
    trace := [Effect.log logger Level.info "Incoming request",
              Effect.log logger Level.debug "Sleeping for %s before request.",
              Effect.sleep p1.1,
              Effect.log logger Level.debug "Sending request to %q",
              Effect.forward r,
              Effect.log logger Level.debug "Sleeping for %s after response returned.",
              Effect.sleep p2.1,
              Effect.log logger Level.debug "Returning response to client."] }

/-- MakeRoundTripper models proxy.go lines 46-128: it resolves the
logger and transport defaults inside roundTrip and always returns a
nil error (.ok). -/
def MakeRoundTripper (dt : TransportFn) (dl : String) (cfg : ProxyConfig) :
    Except String RoundTripperFn :=
  Except.ok (roundTrip dt dl cfg)

/-- URL models net/url.URL restricted to the fields the parser below
can produce. -/
structure URL where
  scheme : String
  opaquePart : String
  host : String
  path : String
  rawQuery : String
  forceQuery : Bool
  fragment : String
deriving Repr, DecidableEq

/-- IsAbs models net/url URL.IsAbs: a URL is absolute when it has a
scheme. -/
def URL.IsAbs (u : URL) : Bool := u.scheme != ""

/-- isASCIILetter matches Go's byte-range letter test in getScheme. -/
def isASCIILetter (c : Char) : Bool :=
  ('a' ≤ c && c ≤ 'z') || ('A' ≤ c && c ≤ 'Z')

/-- isASCIIDigit matches Go's byte-range digit test. -/
def isASCIIDigit (c : Char) : Bool :=
  '0' ≤ c && c ≤ '9'

/-- charToLower models strings.ToLower for the ASCII characters
getScheme can accept (scheme bytes are ASCII alphanumerics or +-.). -/
def charToLower (c : Char) : Char :=
  if 'A' ≤ c && c ≤ 'Z' then Char.ofNat (c.toNat + 32) else c

/-- getSchemeAux is the loop of net/url getScheme, carrying the full
input (for the no-scheme returns), the byte index and the scheme
characters consumed so far. -/
def getSchemeAux (full : List Char) (i : Nat) (acc : List Char) :
    List Char → Except String (List Char × List Char)
  | [] => Except.ok ([], full)
  | c :: rest =>
    if isASCIILetter c then getSchemeAux full (i + 1) (acc ++ [c]) rest
    else if isASCIIDigit c || c = '+' || c = '-' || c = '.' then
      (if i = 0 then Except.ok ([], full)
       else getSchemeAux full (i + 1) (acc ++ [c]) rest)
    else if c = ':' then
      (if i = 0 then Except.error "missing protocol scheme"
       else Except.ok (acc, rest))
    else Except.ok ([], full)

/-- getScheme models net/url getScheme: splits "scheme:rest", or
returns an empty scheme with the input unchanged. -/
def getScheme (cs : List Char) : Except String (List Char × List Char) :=
  getSchemeAux cs 0 [] cs

/-- cutList models strings.Cut on a single-character separator:
some (before, after) at the first occurrence, none when absent. -/
def cutList (sep : Char) : List Char → Option (List Char × List Char)
  | [] => none
  | c :: rest =>
    if c = sep then some ([], rest)
    else
      match cutList sep rest with
      | some p => some (c :: p.1, p.2)
      | none => none

/-- lastSplitOn models strings.LastIndex followed by slicing:
some (before, after) around the last occurrence of the separator. -/
def lastSplitOn (sep : Char) : List Char → Option (List Char × List Char)
  | [] => none
  | c :: rest =>
    match lastSplitOn sep rest with
    | some p => some (c :: p.1, p.2)
    | none => if c = sep then some ([], rest) else none

/-- isPrefixList decides whether the first list is a prefix of the
second (models strings.HasPrefix). -/
def isPrefixList : List Char → List Char → Bool
  | [], _ => true
  | _ :: _, [] => false
  | p :: ps, c :: cs => p = c && isPrefixList ps cs

/-- startsWithSlash abbreviates the strings.HasPrefix(rest, "/")
tests of net/url parse. -/
def startsWithSlash (cs : List Char) : Bool := isPrefixList ['/'] cs

/-- legalHostChar lists the bytes Go's shouldEscape(c, encodeHost)
leaves unescaped: alphanumerics, the host sub-delims, and the
unreserved punctuation. -/
def legalHostChar (c : Char) : Bool :=
  isASCIILetter c || isASCIIDigit c ||
  "!$&'()*+,;=:[]<>\x22".toList.contains c ||
  "-_.~".toList.contains c

/-- parseHost models net/url parseHost restricted to non-bracketed
hosts without percent-escapes: an optional ":port" suffix (taken at
the last colon) must be all decimal digits, and every byte must be a
legal host character. -/
def parseHost (cs : List Char) : Except String String :=
  match lastSplitOn ':' cs with
  | some p =>
    if p.2.all isASCIIDigit then
      (if cs.all legalHostChar then Except.ok cs.asString
       else Except.error "net/url: invalid character in host name")
    else Except.error ("invalid port " ++ (':' :: p.2).asString ++ " after host")
  | none =>
    if cs.all legalHostChar then Except.ok cs.asString
    else Except.error "net/url: invalid character in host name"

/-- parseAuthority models net/url parseAuthority restricted to the
modelled URL (no user field): userinfo before the last '@' is split
off without validation and the remainder is the host. -/
def parseAuthority (cs : List Char) : Except String String :=
  match lastSplitOn '@' cs with
  | some p => parseHost p.2
  | none => parseHost cs

/-- urlParseNoFrag models net/url parse(rawURL, viaRequest := false):
control-character check, the "*" special case, scheme split,
query split (with the trailing-'?' ForceQuery corner), the opaque
early return, the colon-in-first-segment error, authority parsing,
and the path (setPath is the identity on the modelled, escape-free
domain). -/
def urlParseNoFrag (rawURL : String) : Except String URL :=
  let cs := rawURL.data
  if cs.any (fun c => c.toNat < 0x20 || c.toNat = 0x7f) then
    Except.error "net/url: invalid control character in URL"
  else if cs = ['*'] then
    Except.ok { scheme := "", opaquePart := "", host := "", path := "*",
                rawQuery := "", forceQuery := false, fragment := "" }
  else
    match getScheme cs with
    | Except.error e => Except.error e
    | Except.ok sr =>
      let scheme := (sr.1.map charToLower).asString
      let rest0 := sr.2
      let qsplit :=
        if (match rest0.getLast? with
            | some c => c = '?'
            | none => false)
           && !(rest0.dropLast.contains '?') then
          (rest0.dropLast, ([] : List Char), true)
        else
          match cutList '?' rest0 with
          | some p => (p.1, p.2, false)
          | none => (rest0, ([] : List Char), false)
      let rest := qsplit.1
      let rawQuery := qsplit.2.1
      let forceQuery := qsplit.2.2
      if !startsWithSlash rest && scheme != "" then
        Except.ok { scheme := scheme, opaquePart := rest.asString, host := "",
                    path := "", rawQuery := rawQuery.asString,
                    forceQuery := forceQuery, fragment := "" }
      else if !startsWithSlash rest
          && (match cutList '/' rest with
              | some p => p.1
              | none => rest).contains ':' then
        Except.error "first path segment in URL cannot contain colon"
      else if (scheme != "" || !isPrefixList ['/', '/', '/'] rest)
          && isPrefixList ['/', '/'] rest then
        let after := rest.drop 2
        let asplit :=
          match cutList '/' after with
          | some p => (p.1, '/' :: p.2)
          | none => (after, ([] : List Char))
        match parseAuthority asplit.1 with
        | Except.error e => Except.error e
        | Except.ok host =>
          Except.ok { scheme := scheme, opaquePart := "", host := host,
                      path := asplit.2.asString, rawQuery := rawQuery.asString,
                      forceQuery := forceQuery, fragment := "" }
      else
        Except.ok { scheme := scheme, opaquePart := "", host := "",
                    path := rest.asString, rawQuery := rawQuery.asString,
                    forceQuery := forceQuery, fragment := "" }

/-- urlParse models net/url.Parse: split the fragment at the first
'#', parse the rest, and attach a nonempty fragment (errors carry the
inner message; Go additionally wraps them in a url.Error). -/
def urlParse (rawURL : String) : Except String URL :=
  let fsplit :=
    match cutList '#' rawURL.data with
    | some p => (p.1.asString, p.2)
    | none => (rawURL, ([] : List Char))
  match urlParseNoFrag fsplit.1 with
  | Except.error e => Except.error e
  | Except.ok u =>
    if fsplit.2.isEmpty then Except.ok u
    else Except.ok { u with fragment := fsplit.2.asString }

/-- endsWithChar tests the last character of a string. -/
def endsWithChar (s : String) (c : Char) : Bool :=
  match s.data.getLast? with
  | some d => d = c
  | none => false

/-- startsWithChar tests the first character of a string. -/
def startsWithChar (s : String) (c : Char) : Bool :=
  match s.data with
  | [] => false
  | d :: _ => d = c

/-- dropFirst drops the first n characters of a string. -/
def dropFirst (s : String) (n : Nat) : String := (s.data.drop n).asString

/-- singleJoiningSlash models httputil's singleJoiningSlash. -/
def singleJoiningSlash (a b : String) : String :=
  let aslash := endsWithChar a '/'
  let bslash := startsWithChar b '/'
  if aslash && bslash then a ++ dropFirst b 1
  else if !aslash && !bslash then a ++ "/" ++ b
  else a ++ b

/-- ProxyRequest models httputil.ProxyRequest: the inbound request and
the outbound request being built. -/
structure ProxyRequest where
  In : Request
  Out : Request
deriving Repr, DecidableEq

/-- SetURL models httputil.ProxyRequest.SetURL restricted to the
modelled URL (no RawPath, no query merge): it rewrites the outbound
URL's scheme and host to the target's, joins the target's path with
the outbound path, and clears the outbound Host header. -/
def SetURL (out : Request) (target : URL) : Request :=
  { out with
    urlScheme := target.scheme
    urlHost := target.host
    urlPath := singleJoiningSlash target.path out.urlPath
    hostHeader := "" }

/-- ReverseProxy models the httputil.ReverseProxy value MakeProxy
returns: the transport it sends with and the Rewrite hook. -/
structure ReverseProxy where
  Transport : RoundTripperFn
  Rewrite : ProxyRequest → ProxyRequest

/-- MakeProxy models proxy.go lines 130-151: parse the destination,
build the round tripper, and return a ReverseProxy whose Rewrite calls
SetURL with the parsed destination and then sets the outbound Host
header to the inbound host. -/
def MakeProxy (dt : TransportFn) (dl : String) (cfg : ProxyConfig) :
    Except String ReverseProxy :=
  match urlParse cfg.DestURL with
  | Except.error e => Except.error e
  | Except.ok u =>
    match MakeRoundTripper dt dl cfg with
    | Except.error e => Except.error e
    | Except.ok rt =>
      Except.ok
        { Transport := rt
          Rewrite := fun pr =>
            let out := SetURL pr.Out u
            { pr with Out := { out with hostHeader := pr.In.hostHeader } } }

/-- exceptIsOk reports whether an Except value is a success (Go: a nil
error). -/
def exceptIsOk {ε α : Type} : Except ε α → Bool
  | Except.ok _ => true
  | Except.error _ => false

/-- sleepsOf extracts the sleep durations of a trace, in order. -/
def sleepsOf : List Effect → List Duration
  | [] => []
  | Effect.sleep d :: rest => d :: sleepsOf rest
  | _ :: rest => sleepsOf rest

/-- nonLogActions drops the log events of a trace, keeping sleeps and
forwards in order. -/
def nonLogActions : List Effect → List Effect
  | [] => []
  | Effect.log _ _ _ :: rest => nonLogActions rest
  | a :: rest => a :: nonLogActions rest

/-- forwardsOf extracts the requests handed to the underlying
transport, in order. -/
def forwardsOf : List Effect → List Request
  | [] => []
  | Effect.forward r :: rest => r :: forwardsOf rest
  | _ :: rest => forwardsOf rest

/-- tDefault is a concrete stand-in for the ambient
http.DefaultTransport in closed instantiations. -/
def tDefault : TransportFn := fun _ => Except.error "connection refused"

/-- tUpstream is a concrete underlying transport that answers every
request with a fixed 204 response. -/
def tUpstream : TransportFn :=
  fun _ => Except.ok { statusCode := 204, body := "upstream" }

/-- streamOnes is a concrete global entropy stream whose every
standard-exponential draw is 1. -/
def streamOnes : Stream' ℚ := fun _ => 1

/-- streamTwos is a concrete global entropy stream whose every
standard-exponential draw is 2. -/
def streamTwos : Stream' ℚ := fun _ => 2

/-- streamThrees is a concrete global entropy stream whose every
standard-exponential draw is 3. -/
def streamThrees : Stream' ℚ := fun _ => 3

/-- reqStd is a concrete inbound request whose client-facing host is
client.example. -/
def reqStd : Request :=
  { urlScheme := "http"
    urlHost := "proxy.local"
    urlPath := "/index.html"
    hostHeader := "client.example" }

/-- cfg1 configures certain drop: ProbDrop = 1. -/
def cfg1 : ProxyConfig :=
  { DestURL := "http://example.com"
    ProbDrop := 1
    PreDelayRate := 0
    PreDelayMax := 0
    PostDelayRate := 0
    PostDelayMax := 0
    Seed := 0
    Transport := some tUpstream
    Logger := some "logger1" }

/-- cfgC2 fixes a nonzero seed (Seed = 1) and a positive pre-delay
rate. -/
def cfgC2 : ProxyConfig :=
  { DestURL := "http://example.com"
    ProbDrop := 0
    PreDelayRate := 1
    PreDelayMax := 100
    PostDelayRate := 0
    PostDelayMax := 0
    Seed := 1
    Transport := some tUpstream
    Logger := some "logger2" }

/-- cfg3rel uses a destination string that parses as a relative
(non-absolute) URL. -/
def cfg3rel : ProxyConfig :=
  { DestURL := "foo"
    ProbDrop := 0
    PreDelayRate := 0
    PreDelayMax := 0
    PostDelayRate := 0
    PostDelayMax := 0
    Seed := 0
    Transport := some tUpstream
    Logger := none }

/-- urlFoo is the URL net/url.Parse produces for "foo": a relative
path, no scheme. -/
def urlFoo : URL :=
  { scheme := ""
    opaquePart := ""
    host := ""
    path := "foo"
    rawQuery := ""
    forceQuery := false
    fragment := "" }

/-- cfg3err uses a destination string url.Parse rejects (it starts
with a colon). -/
def cfg3err : ProxyConfig :=
  { DestURL := "://x"
    ProbDrop := 0
    PreDelayRate := 0
    PreDelayMax := 0
    PostDelayRate := 0
    PostDelayMax := 0
    Seed := 0
    Transport := some tUpstream
    Logger := none }

/-- cfg5 disables both delays: zero pre rate, negative post rate. -/
def cfg5 : ProxyConfig :=
  { DestURL := "http://example.com"
    ProbDrop := 0
    PreDelayRate := 0
    PreDelayMax := 7
    PostDelayRate := -1
    PostDelayMax := 7
    Seed := 0
    Transport := some tUpstream
    Logger := none }

/-- cfg6 configures certain drop (ProbDrop = 1) with no delays, for
observing the full per-request protocol trace. -/
def cfg6 : ProxyConfig :=
  { DestURL := "http://example.com"
    ProbDrop := 1
    PreDelayRate := 0
    PreDelayMax := 0
    PostDelayRate := 0
    PostDelayMax := 0
    Seed := 0
    Transport := some tUpstream
    Logger := some "logger6" }

/-- cfg7 points at a destination with scheme, host and base path. -/
def cfg7 : ProxyConfig :=
  { DestURL := "http://backend.example/api"
    ProbDrop := 0
    PreDelayRate := 0
    PreDelayMax := 0
    PostDelayRate := 0
    PostDelayMax := 0
    Seed := 0
    Transport := some tUpstream
    Logger := none }

/-- url7 is the parse of cfg7's destination. -/
def url7 : URL :=
  { scheme := "http"
    opaquePart := ""
    host := "backend.example"
    path := "/api"
    rawQuery := ""
    forceQuery := false
    fragment := "" }

/-- proxy7 is the proxy MakeProxy builds for cfg7. -/
def proxy7 : ReverseProxy :=
  ((MakeProxy tDefault "default" cfg7).toOption).get (by rfl)

/-- cfg10 uses a well-formed absolute destination. -/
def cfg10 : ProxyConfig :=
  { DestURL := "http://example.com"
    ProbDrop := 0
    PreDelayRate := 0
    PreDelayMax := 0
    PostDelayRate := 0
    PostDelayMax := 0
    Seed := 0
    Transport := none
    Logger := none }

/-- url10 is the parse of cfg10's destination. -/
def url10 : URL :=
  { scheme := "http"
    opaquePart := ""
    host := "example.com"
    path := ""
    rawQuery := ""
    forceQuery := false
    fragment := "" }

/-- C1: the claim says the round tripper draws a uniform value per
request and, with dropProbability = 1, never invokes the underlying
transport, returning a synthesized drop outcome.  The code contradicts
this: at ProbDrop = 1 the trace still contains the forward of the
request to the underlying transport (position 4 of the per-request
protocol trace) and the caller receives the transport's own response,
not a synthesized drop — the drop decision is an unfilled TODO stub in
the source. -/
theorem C1_probDrop_one_still_forwards :
    cfg1.ProbDrop = 1 ∧
    (roundTrip tDefault "default" cfg1 reqStd streamOnes).trace.get? 4 =
      some (Effect.forward reqStd) ∧
    forwardsOf (roundTrip tDefault "default" cfg1 reqStd streamOnes).trace = [reqStd] ∧
    (roundTrip tDefault "default" cfg1 reqStd streamOnes).result =
      Except.ok { statusCode := 204, body := "upstream" } :=
  ⟨rfl, rfl, rfl, rfl⟩

/-- C2: the claim says a fixed nonzero seed makes the sampled delay
sequence identical across two runs with identical configuration.  The
code contradicts this: cfg.Seed is never read, the samplers draw from
the process-global entropy source, so the same configuration (Seed = 1)
yields different delay sequences under different global-source states. -/
theorem C2_seed_unused_delays_follow_entropy :
    cfgC2.Seed = 1 ∧
    sleepsOf (roundTrip tDefault "default" cfgC2 reqStd streamOnes).trace = [1000000, 0] ∧
    sleepsOf (roundTrip tDefault "default" cfgC2 reqStd streamTwos).trace = [2000000, 0] ∧
    sleepsOf (roundTrip tDefault "default" cfgC2 reqStd streamOnes).trace ≠
      sleepsOf (roundTrip tDefault "default" cfgC2 reqStd streamTwos).trace := by
  have h1 : sleepsOf (roundTrip tDefault "default" cfgC2 reqStd streamOnes).trace
      = [1000000, 0] := by
    norm_num [roundTrip, sleepsOf, preDelay, postDelay, sampleDelay, cfgC2,
      streamOnes, truncToward0, Millisecond, Stream'.head, Stream'.get]
  have h2 : sleepsOf (roundTrip tDefault "default" cfgC2 reqStd streamTwos).trace
      = [2000000, 0] := by
    norm_num [roundTrip, sleepsOf, preDelay, postDelay, sampleDelay, cfgC2,
      streamTwos, truncToward0, Millisecond, Stream'.head, Stream'.get]
  refine ⟨rfl, h1, h2, ?_⟩
  rw [h1, h2]
  decide

/-- C3 counterexample: the claim says construction fails whenever the
destination does not parse as a valid absolute URL.  But "foo" parses
(Go's url.Parse accepts relative URLs), is not absolute, and MakeProxy
succeeds on it. -/
theorem C3_relative_destination_accepted :
    urlParse cfg3rel.DestURL = Except.ok urlFoo ∧
    urlFoo.IsAbs = false ∧
    exceptIsOk (MakeProxy tDefault "default" cfg3rel) = true :=
  ⟨rfl, rfl, rfl⟩

/-- C3 (amended): MakeProxy fails, before any request is handled,
exactly when url.Parse rejects the destination string, propagating the
parse error; destination strings that parse — absolute or not — are
accepted. -/
theorem C3_fails_iff_parse_fails (dt : TransportFn) (dl : String) (cfg : ProxyConfig) :
    (∀ e : String, urlParse cfg.DestURL = Except.error e →
      MakeProxy dt dl cfg = Except.error e) ∧
    exceptIsOk (MakeProxy dt dl cfg) = exceptIsOk (urlParse cfg.DestURL) := by
  constructor
  · intro e he
    simp [MakeProxy, he]
  · cases h : urlParse cfg.DestURL with
    | error e => simp [MakeProxy, h, exceptIsOk]
    | ok u => simp [MakeProxy, h, MakeRoundTripper, exceptIsOk]

/-- C3 witness: at the concrete unparseable destination "://x" the
parse error is propagated by MakeProxy. -/
theorem C3_witness :
    MakeProxy tDefault "default" cfg3err = Except.error "missing protocol scheme" :=
  (C3_fails_iff_parse_fails tDefault "default" cfg3err).1 "missing protocol scheme" rfl

/-- C4: for rate > 0, max ≥ 0 and a nonnegative draw, the sampled
delay is exactly the truncation toward zero (to milliseconds) of the
drawn value clamped at max — clamped, not resampled (one stream
element is consumed) — and the resulting delay lies in [0, max
milliseconds]. -/
theorem C4_sample_clamped_bounded (rate mx : ℚ) (s : Stream' ℚ)
    (hrate : 0 < rate) (hmx : 0 ≤ mx) (hdraw : 0 ≤ s.head) :
    (sampleDelay rate mx s).1 =
      truncToward0 (if s.head / rate > mx then mx else s.head / rate) * Millisecond ∧
    0 ≤ (sampleDelay rate mx s).1 ∧
    ((sampleDelay rate mx s).1 : ℚ) ≤ mx * (Millisecond : ℚ) ∧
    (sampleDelay rate mx s).2 = s.tail := by
  have hnle : ¬ rate ≤ 0 := not_le.mpr hrate
  have hx0 : 0 ≤ s.head / rate := div_nonneg hdraw hrate.le
  have hy0 : 0 ≤ if s.head / rate > mx then mx else s.head / rate := by
    split
    · exact hmx
    · exact hx0
  have hymx : (if s.head / rate > mx then mx else s.head / rate) ≤ mx := by
    split
    · exact le_refl mx
    · next h => exact le_of_not_lt h
  have hsd : sampleDelay rate mx s =
      (truncToward0 (if s.head / rate > mx then mx else s.head / rate) * Millisecond,
        s.tail) := by
    simp only [sampleDelay, hnle, if_false]
  have htr : truncToward0 (if s.head / rate > mx then mx else s.head / rate) =
      ⌊if s.head / rate > mx then mx else s.head / rate⌋ := by
    simp only [truncToward0, if_pos hy0]
  refine ⟨by rw [hsd], ?_, ?_, by rw [hsd]⟩
  · rw [hsd, htr]
    exact mul_nonneg (Int.floor_nonneg.mpr hy0) (by norm_num [Millisecond])
  · rw [hsd, htr]
    push_cast [Millisecond]
    have hfl : (⌊if s.head / rate > mx then mx else s.head / rate⌋ : ℚ) ≤ mx :=
      (Int.floor_le _).trans hymx
    nlinarith [hfl]

/-- C4 witness: concrete instantiation at rate 1, max 5, draw 3. -/
theorem C4_witness :
    (sampleDelay 1 5 streamThrees).1 =
      truncToward0 (if streamThrees.head / 1 > 5 then 5 else streamThrees.head / 1) *
        Millisecond ∧
    0 ≤ (sampleDelay 1 5 streamThrees).1 ∧
    ((sampleDelay 1 5 streamThrees).1 : ℚ) ≤ 5 * (Millisecond : ℚ) ∧
    (sampleDelay 1 5 streamThrees).2 = streamThrees.tail :=
  C4_sample_clamped_bounded 1 5 streamThrees (by norm_num) (by norm_num)
    (by norm_num [streamThrees, Stream'.head, Stream'.get])

/-- C5: a nonpositive pre-delay rate makes the pre-delay exactly zero
and consumes no randomness; the same independently for the post-delay;
and the two sleeps of every round trip are exactly the pre- and
post-delay samples, the final stream state being what the two samples
leave behind. -/
theorem C5_nonpositive_rate_zero_delay (cfg : ProxyConfig) (dt : TransportFn)
    (dl : String) (r : Request) (s : Stream' ℚ) :
    (cfg.PreDelayRate ≤ 0 → preDelay cfg s = (0, s)) ∧
    (cfg.PostDelayRate ≤ 0 → ∀ s2 : Stream' ℚ, postDelay cfg s2 = (0, s2)) ∧
    sleepsOf (roundTrip dt dl cfg r s).trace =
      [(preDelay cfg s).1, (postDelay cfg (preDelay cfg s).2).1] ∧
    (roundTrip dt dl cfg r s).stream = (postDelay cfg (preDelay cfg s).2).2 := by
  refine ⟨?_, ?_, rfl, rfl⟩
  · intro h
    simp only [preDelay, sampleDelay, if_pos h]
  · intro h s2
    simp only [postDelay, sampleDelay, if_pos h]

/-- C5 witness: concrete instantiation with pre rate 0 and post rate
-1: both delays are zero and the streams pass through untouched. -/
theorem C5_witness :
    preDelay cfg5 streamOnes = (0, streamOnes) ∧
    postDelay cfg5 streamTwos = (0, streamTwos) :=
  ⟨(C5_nonpositive_rate_zero_delay cfg5 tDefault "default" reqStd streamOnes).1
      (by norm_num [cfg5]),
   (C5_nonpositive_rate_zero_delay cfg5 tDefault "default" reqStd streamOnes).2.1
      (by norm_num [cfg5]) streamTwos⟩

/-- C6: the claim says the per-request protocol is pre-delay,
drop-check, forward, post-delay, return, with the post-delay applied
whether the request was dropped or forwarded.  The code contradicts
the drop-check step: even at ProbDrop = 1 the trace is exactly
pre-sleep, forward, post-sleep, return — no drop stage exists (TODO
stub), no request is ever dropped, and the transport is always
invoked; the post-delay does follow the forward regardless of its
outcome. -/
theorem C6_trace_order_no_drop_stage :
    cfg6.ProbDrop = 1 ∧
    (roundTrip tUpstream "default" cfg6 reqStd streamOnes).trace =
      [Effect.log "logger6" Level.info "Incoming request",
       Effect.log "logger6" Level.debug "Sleeping for %s before request.",
       Effect.sleep 0,
       Effect.log "logger6" Level.debug "Sending request to %q",
       Effect.forward reqStd,
       Effect.log "logger6" Level.debug "Sleeping for %s after response returned.",
       Effect.sleep 0,
       Effect.log "logger6" Level.debug "Returning response to client."] ∧
    (roundTrip tUpstream "default" cfg6 reqStd streamOnes).result = tUpstream reqStd :=
  ⟨rfl, rfl, rfl⟩

/-- C7: for any configuration whose destination parses, the assembled
proxy's Rewrite sets the outbound URL's scheme and host to the
destination's, joins the destination path with the inbound path, and
sets the outbound Host header to the original inbound request's host,
leaving the inbound request untouched. -/
theorem C7_rewrite_sets_target_preserves_host (dt : TransportFn) (dl : String)
    (cfg : ProxyConfig) (u : URL) (p : ReverseProxy)
    (hu : urlParse cfg.DestURL = Except.ok u)
    (hp : MakeProxy dt dl cfg = Except.ok p) (r : Request) :
    (p.Rewrite { In := r, Out := r }).Out.urlScheme = u.scheme ∧
    (p.Rewrite { In := r, Out := r }).Out.urlHost = u.host ∧
    (p.Rewrite { In := r, Out := r }).Out.urlPath = singleJoiningSlash u.path r.urlPath ∧
    (p.Rewrite { In := r, Out := r }).Out.hostHeader = r.hostHeader ∧
    (p.Rewrite { In := r, Out := r }).In = r := by
  simp only [MakeProxy, hu, MakeRoundTripper] at hp
  injection hp with hp
  subst hp
  exact ⟨rfl, rfl, rfl, rfl, rfl⟩

/-- C7 witness: through the proxy built for destination
http://backend.example/api, a request with client host
client.example keeps Host client.example while the outbound URL
points at backend.example. -/
theorem C7_witness :
    (proxy7.Rewrite { In := reqStd, Out := reqStd }).Out.hostHeader = "client.example" ∧
    (proxy7.Rewrite { In := reqStd, Out := reqStd }).Out.urlHost = "backend.example" ∧
    (proxy7.Rewrite { In := reqStd, Out := reqStd }).Out.urlScheme = "http" := by
  have h := C7_rewrite_sets_target_preserves_host tDefault "default" cfg7 url7 proxy7
    rfl rfl reqStd
  exact ⟨h.2.2.2.1, h.2.1, h.1⟩

/-- C8: the result a round trip hands back is verbatim the result of
the single invocation of the underlying transport on the unmodified
request — no retry (exactly one forward appears in the trace), no
wrapping, no suppression. -/
theorem C8_transport_result_passthrough (dt : TransportFn) (dl : String)
    (cfg : ProxyConfig) (r : Request) (s : Stream' ℚ) :
    (roundTrip dt dl cfg r s).result = (cfg.Transport.getD dt) r ∧
    forwardsOf (roundTrip dt dl cfg r s).trace = [r] :=
  ⟨rfl, rfl⟩

/-- C9: configuring a logger versus falling back to the process-wide
default changes neither the result, nor the stream consumption, nor
the non-log effects (sleeps and forward) of any round trip — logging
is purely diagnostic. -/
theorem C9_logging_pure_diagnostic (dt : TransportFn) (dl : String)
    (cfg : ProxyConfig) (lg : String) (r : Request) (s : Stream' ℚ) :
    (roundTrip dt dl { cfg with Logger := some lg } r s).result =
      (roundTrip dt dl { cfg with Logger := none } r s).result ∧
    (roundTrip dt dl { cfg with Logger := some lg } r s).stream =
      (roundTrip dt dl { cfg with Logger := none } r s).stream ∧
    nonLogActions (roundTrip dt dl { cfg with Logger := some lg } r s).trace =
      nonLogActions (roundTrip dt dl { cfg with Logger := none } r s).trace :=
  ⟨rfl, rfl, rfl⟩

/-- C10: MakeRoundTripper never fails (it returns .ok for every
configuration), a parsed destination makes MakeProxy succeed, and any
MakeProxy failure is exactly a destination-parse failure. -/
theorem C10_only_failure_is_parse (dt : TransportFn) (dl : String) (cfg : ProxyConfig) :
    MakeRoundTripper dt dl cfg = Except.ok (roundTrip dt dl cfg) ∧
    (∀ u : URL, urlParse cfg.DestURL = Except.ok u →
      exceptIsOk (MakeProxy dt dl cfg) = true) ∧
    (∀ e : String, MakeProxy dt dl cfg = Except.error e →
      urlParse cfg.DestURL = Except.error e) := by
  refine ⟨rfl, ?_, ?_⟩
  · intro u hu
    simp [MakeProxy, hu, MakeRoundTripper, exceptIsOk]
  · intro e he
    cases h : urlParse cfg.DestURL with
    | error e2 =>
      simp only [MakeProxy, h, MakeRoundTripper] at he
      injection he with h2
      rw [h2]
    | ok u =>
      simp only [MakeProxy, h, MakeRoundTripper] at he
      exact Except.noConfusion he

/-- C10 witness: on the concrete destination http://example.com,
MakeProxy succeeds. -/
theorem C10_witness : exceptIsOk (MakeProxy tDefault "default" cfg10) = true :=
  (C10_only_failure_is_parse tDefault "default" cfg10).2.1 url10 rfl
